import Mathlib

/-!
Verification of `scripts/claude_proxy.py`, a small HTTP proxy that turns
Anthropic-style chat requests into invocations of an external `claude -p`
command. The handler logic is embedded shallowly: the request body arrives
already split into its parse outcome, and the external command's behaviour is
an explicit outcome value, so the handler becomes a pure function from
(path, parsed body, command outcome) to the HTTP response it writes.
-/

namespace ClaudeProxy

/-- A JSON value, as produced by `json.dumps` on the dictionaries the handler
builds. Numbers are restricted to naturals since the handler only serialises
word counts. -/
inductive Json where
  | str (s : String)
  | num (n : Nat)
  | arr (elems : List Json)
  | obj (fields : List (String × Json))

/-- One element of the request's `messages` list. `content` is `none` when the
key is absent; `msg.get('content', '')` then yields the empty string. -/
structure Msg where
  content : Option String
deriving DecidableEq, Repr

/-- The parsed request body. Each field is `none` when the key is absent, in
which case `data.get` supplies the default (`[]` for `messages`, `''` for
`system`). -/
structure ChatData where
  messages : Option (List Msg)
  system : Option String
deriving DecidableEq, Repr

/-- Outcome of `json.loads` on the raw request body: either a
`json.JSONDecodeError` carrying its message, or the parsed data. -/
inductive ParseResult where
  | malformed (errMsg : String)
  | parsed (data : ChatData)
deriving DecidableEq, Repr

/-- Outcome of the `subprocess.run` invocation: normal completion with a
return code and captured output streams, `subprocess.TimeoutExpired`, or some
other exception rendered by `str(e)`. -/
inductive CmdOutcome where
  | completed (returncode : Int) (stdout : String) (stderr : String)
  | timedOut
  | raised (msg : String)
deriving DecidableEq, Repr

/-- The body the handler writes: a serialised JSON value (`json.dumps`), the
default HTML error page emitted by `BaseHTTPRequestHandler.send_error` with
the given code and message, or no body at all. -/
inductive RespBody where
  | jsonBody (j : Json)
  | errorPage (code : Nat) (message : String)
  | empty

/-- An HTTP response: the status code passed to `send_response` (or
`send_error`) together with the body written to `wfile`. -/
structure Response where
  status : Nat
  body : RespBody

/-- The arguments of a `subprocess.run` invocation: the argv list and the
`timeout` keyword (in seconds). -/
structure SubprocessCall where
  argv : List String
  timeout : Nat
deriving DecidableEq, Repr

/-- Result of the POST handler: the subprocess invocation it performed, if it
reached that point, and the response it wrote. -/
structure PostResult where
  call : Option SubprocessCall
  response : Response

/-- Python's `'\n'.join(parts)`: the parts interleaved with single newlines,
empty for the empty list, with no leading or trailing separator. -/
def joinNL : List String → String
  | [] => ""
  | [part] => part
  | part :: rest => part ++ "\n" ++ joinNL rest

/-- Accumulator-style splitter over a character list: whitespace separates
words and contributes no empty fragments. `acc` holds the current word's
characters in reverse. -/
def splitWSAux : List Char → List Char → List String
  | [], acc => if acc.isEmpty then [] else [String.mk acc.reverse]
  | c :: cs, acc =>
      if c.isWhitespace then
        if acc.isEmpty then splitWSAux cs []
        else String.mk acc.reverse :: splitWSAux cs []
      else splitWSAux cs (c :: acc)

/-- Python's `s.split()` with no arguments: split on runs of whitespace,
discarding empty fragments, so leading and trailing whitespace contribute
nothing. -/
def pySplitWS (s : String) : List String :=
  splitWSAux s.toList []

/-- `len(s.split())`: the whitespace-delimited word count used for the
`usage` fields. -/
def wordCount (s : String) : Nat :=
  (pySplitWS s).length

/-- Lines 43-53: extract `messages` and `system` with their defaults and
build `prompt_parts`. A truthy (non-empty) `system` contributes the part
`system + "\n"`; each message contributes its `content` (defaulting to the
empty string). -/
def promptParts (data : ChatData) : List String :=
  let messages := data.messages.getD []
  let system := (data.system).getD ""
  (if system = "" then [] else [system ++ "\n"])
    ++ messages.map (fun m => m.content.getD "")

/-- Line 55: `full_prompt = '\n'.join(prompt_parts)`. -/
def fullPrompt (data : ChatData) : String :=
  joinNL (promptParts data)

/-- Lines 64-69: the `subprocess.run` invocation — argv
`['claude', '-p', full_prompt]` with `timeout=120`. -/
def claudeCall (full_prompt : String) : SubprocessCall :=
  ⟨["claude", "-p", full_prompt], 120⟩

/-- The JSON shape `json.dumps` produces for every manually written error
body: an `error` object holding a `message` string. -/
def errorJson (m : String) : Json :=
  .obj [("error", .obj [("message", .str m)])]

/-- Whether a response body is a JSON object of the error shape: an `error`
field holding an object with a string `message` field. -/
def isErrorShapeBody : RespBody → Bool
  | .jsonBody (.obj [("error", .obj [("message", .str _)])]) => true
  | _ => false

/-- Lines 87-94: the success payload — `content` holding one text block,
the fixed `model` identifier, and `usage` word counts for the prompt and the
generated text. -/
def chatResponseJson (full_prompt : String) (response_text : String) : Json :=
  .obj [
    ("content", .arr [.obj [("type", .str "text"), ("text", .str response_text)]]),
    ("model", .str "claude-cli"),
    ("usage", .obj [
      ("input_tokens", .num (wordCount full_prompt)),
      ("output_tokens", .num (wordCount response_text))])]

/-- Lines 17-25: the GET handler. `self.path` is the raw request target
(query string included); only the exact string `/health` gets the fixed
payload, everything else 404 with no body. The request's body is never read,
so it is an ignored argument. -/
def do_GET (rawPath : String) (_requestBody : String) : Response :=
  if rawPath = "/health" then
    ⟨200, .jsonBody (.obj [("status", .str "ok")])⟩
  else
    ⟨404, .empty⟩

/-- Lines 27-114: the POST handler. A path other than `/v1/messages` gets 404
with no body and no subprocess call; a malformed body gets `send_error(400,
'Invalid JSON: ...')`; otherwise the prompt is built, the command invoked,
and the outcome mapped to 200 / 500 / 504 / 500 as in lines 71-114. -/
def do_POST (rawPath : String) (body : ParseResult) (outcome : CmdOutcome) :
    PostResult :=
  if rawPath ≠ "/v1/messages" then
    ⟨none, ⟨404, .empty⟩⟩
  else
    match body with
    | .malformed errMsg =>
        ⟨none, ⟨400, .errorPage 400 ("Invalid JSON: " ++ errMsg)⟩⟩
    | .parsed data =>
        let full_prompt := fullPrompt data
        let call := claudeCall full_prompt
        match outcome with
        | .completed rc sout serr =>
            let response_text := sout.trim
            if rc ≠ 0 then
              ⟨some call, ⟨500, .jsonBody (errorJson ("Claude CLI error: " ++ serr))⟩⟩
            else
              ⟨some call, ⟨200, .jsonBody (chatResponseJson full_prompt response_text)⟩⟩
        | .timedOut =>
            ⟨some call, ⟨504, .jsonBody (errorJson "Claude CLI timeout")⟩⟩
        | .raised m =>
            ⟨some call, ⟨500, .jsonBody (errorJson m)⟩⟩

/-- The server's dispatch over the handler class: `BaseHTTPRequestHandler`
looks up `do_<METHOD>`; the class defines only `do_GET` and `do_POST`, and
any other method gets `send_error(501, "Unsupported method (...)")` from the
base class. -/
def handleRequest (method : String) (rawPath : String) (requestBody : String)
    (parse : ParseResult) (outcome : CmdOutcome) : Response :=
  if method = "GET" then
    do_GET rawPath requestBody
  else if method = "POST" then
    (do_POST rawPath parse outcome).response
  else
    ⟨501, .errorPage 501 ("Unsupported method ('" ++ method ++ "')")⟩

/-- The part of a newline join that follows the first element: a separator
before each remaining part. -/
def tailJoin : List String → String
  | [] => ""
  | a :: as => "\n" ++ a ++ tailJoin as

theorem intercalate_go_spec (xs : List String) (acc : String) :
    String.intercalate.go acc "\n" xs = acc ++ tailJoin xs := by
  induction xs generalizing acc with
  | nil => simp [String.intercalate.go, tailJoin]
  | cons a as ih =>
      rw [String.intercalate.go, ih, tailJoin]
      simp [String.append_assoc]

theorem joinNL_cons (x : String) (xs : List String) :
    joinNL (x :: xs) = x ++ tailJoin xs := by
  induction xs generalizing x with
  | nil => simp [joinNL, tailJoin]
  | cons y ys ih =>
      rw [show joinNL (x :: y :: ys) = x ++ "\n" ++ joinNL (y :: ys) from rfl,
        ih, tailJoin]
      simp [String.append_assoc]

/-- `joinNL` agrees with the library's `String.intercalate` at separator
`"\n"`. -/
theorem joinNL_eq_intercalate (xs : List String) :
    joinNL xs = String.intercalate "\n" xs := by
  cases xs with
  | nil => rfl
  | cons x rest =>
      rw [joinNL_cons, String.intercalate, intercalate_go_spec]

/-- Every request that reaches the subprocess stage invokes the command on
the full prompt, whatever the outcome. -/
theorem do_POST_call (data : ChatData) (outcome : CmdOutcome) :
    (do_POST "/v1/messages" (.parsed data) outcome).call
      = some (claudeCall (fullPrompt data)) := by
  cases outcome with
  | completed rc sout serr => by_cases hrc : rc = 0 <;> simp [do_POST, hrc]
  | timedOut => simp [do_POST]
  | raised m => simp [do_POST]

/-- A parsed request never yields a 400 response, whatever the outcome. -/
theorem do_POST_parsed_status_ne_400 (data : ChatData) (outcome : CmdOutcome) :
    (do_POST "/v1/messages" (.parsed data) outcome).response.status ≠ 400 := by
  cases outcome with
  | completed rc sout serr => by_cases hrc : rc = 0 <;> simp [do_POST, hrc]
  | timedOut => simp [do_POST]
  | raised m => simp [do_POST]

/-- C1: for a POST to `/v1/messages` whose body parses with a non-empty
system text `s` and two messages with contents `a` and `b`, the prompt handed
to the external command is exactly the system text, a blank line, then each
message's content on its own line, in input order. -/
theorem C1_prompt_is_system_blank_then_messages (s a b : String)
    (outcome : CmdOutcome) (hs : s ≠ "") :
    (do_POST "/v1/messages"
        (.parsed ⟨some [⟨some a⟩, ⟨some b⟩], some s⟩) outcome).call
      = some ⟨["claude", "-p", s ++ "\n\n" ++ a ++ "\n" ++ b], 120⟩ := by
  rw [do_POST_call]
  have hp : fullPrompt ⟨some [⟨some a⟩, ⟨some b⟩], some s⟩
      = s ++ "\n\n" ++ a ++ "\n" ++ b := by
    have h1 : promptParts ⟨some [⟨some a⟩, ⟨some b⟩], some s⟩
        = [s ++ "\n", a, b] := by
      simp [promptParts, hs]
    have h2 : joinNL [s ++ "\n", a, b] = (s ++ "\n") ++ "\n" ++ (a ++ "\n" ++ b) := rfl
    rw [fullPrompt, h1, h2]
    have hnl : ("\n\n" : String) = "\n" ++ "\n" := rfl
    rw [hnl]
    simp [String.append_assoc]
  rw [hp, claudeCall]

/-- C1 witness at the concrete request of the claim. -/
theorem C1_witness :
    (do_POST "/v1/messages"
        (.parsed ⟨some [⟨some "A"⟩, ⟨some "B"⟩], some "S"⟩)
        (.completed 0 "" "")).call
      = some ⟨["claude", "-p", "S" ++ "\n\n" ++ "A" ++ "\n" ++ "B"], 120⟩ :=
  C1_prompt_is_system_blank_then_messages "S" "A" "B" (.completed 0 "" "")
    (by decide)

/-- C2: a well-formed POST whose command exits with status zero yields a 200
response whose content is one text block holding the trimmed standard output,
whose model is the fixed identifier, and whose usage fields are the
whitespace-delimited word counts of the prompt and of the trimmed output;
in particular generated text Hello counts as one word. -/
theorem C2_success_response_shape (data : ChatData) (sout serr : String) :
    (do_POST "/v1/messages" (.parsed data) (.completed 0 sout serr)).response
      = ⟨200, .jsonBody (.obj [
          ("content", .arr [.obj [("type", .str "text"), ("text", .str (sout.trim))]]),
          ("model", .str "claude-cli"),
          ("usage", .obj [
            ("input_tokens", .num (wordCount (fullPrompt data))),
            ("output_tokens", .num (wordCount (sout.trim)))])])⟩
    ∧ wordCount "Hello" = 1 := by
  constructor
  · simp [do_POST, chatResponseJson]
  · decide

/-- C4: a well-formed POST whose command completes with a non-zero status
yields a 500 response whose error message contains the captured standard
error text. -/
theorem C4_nonzero_exit_500_with_stderr (data : ChatData) (rc : Int)
    (sout serr : String) (hrc : rc ≠ 0) :
    (do_POST "/v1/messages" (.parsed data) (.completed rc sout serr)).response
      = ⟨500, .jsonBody (errorJson ("Claude CLI error: " ++ serr))⟩
    ∧ ∃ pre suf, "Claude CLI error: " ++ serr = pre ++ serr ++ suf := by
  refine ⟨by simp [do_POST, hrc], "Claude CLI error: ", "", ?_⟩
  simp

/-- C4 witness at return code 1 and stderr boom. -/
theorem C4_witness :
    (do_POST "/v1/messages" (.parsed ⟨some [], none⟩)
        (.completed 1 "" "boom")).response
      = ⟨500, .jsonBody (errorJson ("Claude CLI error: " ++ "boom"))⟩
    ∧ ∃ pre suf, "Claude CLI error: " ++ "boom" = pre ++ "boom" ++ suf :=
  C4_nonzero_exit_500_with_stderr ⟨some [], none⟩ 1 "" "boom" (by decide)

/-- C5: every well-formed POST invokes the external command with timeout 120,
and a timed-out command yields a 504 response carrying the timeout-specific
message, with a status distinct from the generic 500 failure. -/
theorem C5_timeout_bound_and_504 (data : ChatData) (outcome : CmdOutcome) :
    (do_POST "/v1/messages" (.parsed data) outcome).call
      = some (claudeCall (fullPrompt data))
    ∧ (claudeCall (fullPrompt data)).timeout = 120
    ∧ (do_POST "/v1/messages" (.parsed data) .timedOut).response
        = ⟨504, .jsonBody (errorJson "Claude CLI timeout")⟩
    ∧ (do_POST "/v1/messages" (.parsed data) .timedOut).response.status ≠ 500 := by
  refine ⟨do_POST_call data outcome, rfl, by simp [do_POST], by simp [do_POST]⟩

/-- C3 counterexample: the 400 response for a malformed body is the default
error page, not a JSON object of the error shape, refuting the claim that
every error response body has that JSON shape. -/
theorem C3_counterexample_400_not_json :
    (do_POST "/v1/messages"
        (.malformed "Expecting value: line 1 column 1 (char 0)")
        (.completed 0 "" "")).response.status = 400
    ∧ isErrorShapeBody (do_POST "/v1/messages"
        (.malformed "Expecting value: line 1 column 1 (char 0)")
        (.completed 0 "" "")).response.body = false := by
  refine ⟨by simp [do_POST], by simp [do_POST, isErrorShapeBody]⟩

/-- C3 amended: the 500 responses (non-zero exit, generic failure) and the
504 timeout response have JSON bodies of the shape of an error object holding
a message string, while the 400 response for a malformed body is the server's
default error page whose message references the parse failure. -/
theorem C3_amended_error_bodies (data : ChatData) (rc : Int)
    (sout serr m errMsg : String) (outcome : CmdOutcome) (hrc : rc ≠ 0) :
    isErrorShapeBody (do_POST "/v1/messages" (.parsed data)
        (.completed rc sout serr)).response.body = true
    ∧ isErrorShapeBody (do_POST "/v1/messages" (.parsed data)
        .timedOut).response.body = true
    ∧ isErrorShapeBody (do_POST "/v1/messages" (.parsed data)
        (.raised m)).response.body = true
    ∧ (do_POST "/v1/messages" (.malformed errMsg) outcome).response
        = ⟨400, .errorPage 400 ("Invalid JSON: " ++ errMsg)⟩ := by
  refine ⟨by simp [do_POST, hrc, errorJson, isErrorShapeBody],
    by simp [do_POST, errorJson, isErrorShapeBody],
    by simp [do_POST, errorJson, isErrorShapeBody],
    by simp [do_POST]⟩

/-- C3 amended witness at concrete inputs. -/
theorem C3_amended_witness :
    isErrorShapeBody (do_POST "/v1/messages" (.parsed ⟨some [], none⟩)
        (.completed 1 "" "oops")).response.body = true
    ∧ isErrorShapeBody (do_POST "/v1/messages" (.parsed ⟨some [], none⟩)
        .timedOut).response.body = true
    ∧ isErrorShapeBody (do_POST "/v1/messages" (.parsed ⟨some [], none⟩)
        (.raised "err")).response.body = true
    ∧ (do_POST "/v1/messages" (.malformed "bad json")
        (.completed 0 "" "")).response
        = ⟨400, .errorPage 400 ("Invalid JSON: " ++ "bad json")⟩ :=
  C3_amended_error_bodies ⟨some [], none⟩ 1 "" "oops" "err" "bad json"
    (.completed 0 "" "") (by decide)

/-- C6 counterexample: a GET whose raw target carries a query string after
`/health` is answered 404 with an empty body, refuting the claim that
requests to the health route succeed regardless of query content. -/
theorem C6_counterexample_query_string :
    (do_GET "/health?verbose=1" "").status = 404
    ∧ isErrorShapeBody (do_GET "/health?verbose=1" "").body = false
    ∧ (do_GET "/health?verbose=1" "").status ≠ 200 := by
  refine ⟨by simp [do_GET], by simp [do_GET, isErrorShapeBody], by simp [do_GET]⟩

/-- C6 amended: a GET whose raw target is exactly `/health` is answered 200
with the fixed status payload, regardless of the request's body; a query
string makes the raw target differ and falls through to 404. -/
theorem C6_amended_health_exact_target (requestBody : String)
    (parse : ParseResult) (outcome : CmdOutcome) :
    handleRequest "GET" "/health" requestBody parse outcome
      = ⟨200, .jsonBody (.obj [("status", .str "ok")])⟩ := by
  simp [handleRequest, do_GET]

/-- C7 counterexample: a request with a method other than GET or POST is
answered 501 by the base server, not 404, refuting the claim that every
non-matching method and path yields 404. -/
theorem C7_counterexample_other_method :
    (handleRequest "PUT" "/anything" "" (.parsed ⟨none, none⟩) .timedOut).status = 501
    ∧ (handleRequest "PUT" "/anything" "" (.parsed ⟨none, none⟩) .timedOut).status
        ≠ 404 := by
  refine ⟨by simp [handleRequest], by simp [handleRequest]⟩

/-- C7 amended: a GET whose raw target is not `/health` is answered 404 with
an empty body, a POST whose raw target is not `/v1/messages` is answered 404
with an empty body, and any method other than GET and POST — whatever the
target, defined routes included — is answered 501 by the base server. -/
theorem C7_amended_unmatched_routes (method rawPath requestBody : String)
    (parse : ParseResult) (outcome : CmdOutcome) :
    (rawPath ≠ "/health" →
      handleRequest "GET" rawPath requestBody parse outcome = ⟨404, .empty⟩)
    ∧ (rawPath ≠ "/v1/messages" →
      handleRequest "POST" rawPath requestBody parse outcome = ⟨404, .empty⟩)
    ∧ (method ≠ "GET" → method ≠ "POST" →
      (handleRequest method rawPath requestBody parse outcome).status = 501) := by
  refine ⟨fun hg => by simp [handleRequest, do_GET, hg],
    fun hp => by simp [handleRequest, do_POST, hp],
    fun hm hm2 => by simp [handleRequest, hm, hm2]⟩

/-- C7 amended witness: GET and POST on an unmatched path get 404, and a
DELETE aimed at the defined `/health` route gets 501. -/
theorem C7_amended_witness :
    handleRequest "GET" "/nope" "" (.parsed ⟨none, none⟩) .timedOut = ⟨404, .empty⟩
    ∧ handleRequest "POST" "/nope" "" (.parsed ⟨none, none⟩) .timedOut = ⟨404, .empty⟩
    ∧ (handleRequest "DELETE" "/health" "" (.parsed ⟨none, none⟩) .timedOut).status
        = 501 :=
  ⟨(C7_amended_unmatched_routes "DELETE" "/nope" "" (.parsed ⟨none, none⟩)
      .timedOut).1 (by decide),
   (C7_amended_unmatched_routes "DELETE" "/nope" "" (.parsed ⟨none, none⟩)
      .timedOut).2.1 (by decide),
   (C7_amended_unmatched_routes "DELETE" "/health" "" (.parsed ⟨none, none⟩)
      .timedOut).2.2 (by decide) (by decide)⟩

/-- C8: with no system key, the prompt handed to the command is exactly the
message contents joined by single newlines, with no system line and no
leading blank line. -/
theorem C8_no_system_prompt_is_joined_contents (msgs : List Msg)
    (outcome : CmdOutcome) :
    (do_POST "/v1/messages" (.parsed ⟨some msgs, none⟩) outcome).call
      = some (claudeCall
          (String.intercalate "\n" (msgs.map (fun m => m.content.getD "")))) := by
  have hp : fullPrompt ⟨some msgs, none⟩
      = String.intercalate "\n" (msgs.map (fun m => m.content.getD "")) := by
    rw [fullPrompt, joinNL_eq_intercalate]
    simp [promptParts]
  rw [do_POST_call, hp]

/-- C9: a valid body lacking the messages key is processed exactly as if the
messages list were empty, and is never rejected with a 400. -/
theorem C9_missing_messages_as_empty (sys : Option String)
    (outcome : CmdOutcome) :
    do_POST "/v1/messages" (.parsed ⟨none, sys⟩) outcome
      = do_POST "/v1/messages" (.parsed ⟨some [], sys⟩) outcome
    ∧ (do_POST "/v1/messages" (.parsed ⟨none, sys⟩) outcome).response.status
        ≠ 400 := by
  exact ⟨rfl, do_POST_parsed_status_ne_400 ⟨none, sys⟩ outcome⟩

/-- C10: a present-but-empty system string is falsy, so the prompt — and the
whole handler result — is identical to the same request with the system key
absent. -/
theorem C10_empty_system_like_absent (msgs : Option (List Msg))
    (outcome : CmdOutcome) :
    do_POST "/v1/messages" (.parsed ⟨msgs, some ""⟩) outcome
      = do_POST "/v1/messages" (.parsed ⟨msgs, none⟩) outcome := rfl

end ClaudeProxy
